import Mathlib

/-!
Shallow embedding of the error-propagation core of a small C++ SQLite
wrapper: the value-or-error variant `expected<T>` (src/expected.hpp) and
the checked result guard `sql_result` (src/sqlite.hpp), plus the two
consumers the claims mention (`statement::bind`, the row loop of `main`).

Member functions are modelled as pure functions over explicit state
records; a member that mutates its object returns the result paired with
the post-state, and an operation acting on two objects returns both
post-states.  C++ undefined behaviour that the claims talk about (reading
or assigning a union member that is not the constructed one) is modelled
by `Option`, with `none` meaning the operation has no defined outcome.
-/

/-- `SQLITE_OK` from sqlite3.h. -/
def SQLITE_OK : Int := 0

/-- `SQLITE_ROW` from sqlite3.h. -/
def SQLITE_ROW : Int := 100

/-- `SQLITE_DONE` from sqlite3.h. -/
def SQLITE_DONE : Int := 101

/-- `sqlite::sql_error` (src/sqlite.hpp lines 43-53): an `std::exception`
carrying a numeric status code and a message. -/
structure sql_error where
  code : Int
  message : String
deriving Repr, DecidableEq

/-- The state of a `sqlite::sql_result` (src/sqlite.hpp lines 55-135):
the raw status `value`, the observation flag `m_saw_error`, and the
attached error `m_err` (`boost::optional<sql_error>`). -/
structure sql_result where
  value : Int
  m_saw_error : Bool
  m_err : Option sql_error
deriving Repr, DecidableEq

/-- Private constructor `sql_result(int)` (line 132): a success result;
the flag starts true, no error is attached. -/
def sql_result.mkClean (v : Int) : sql_result :=
  ⟨v, true, none⟩

/-- Private constructor `sql_result(int, sql_error)` (line 133): a failure
result; the flag starts false and the error is attached. -/
def sql_result.mkDirty (v : Int) (e : sql_error) : sql_result :=
  ⟨v, false, some e⟩

/-- `sql_result::from_cmd` (lines 58-71): `SQLITE_OK` yields a clean
guard; any other status yields a dirty guard carrying the status code and
the message fetched from the handle (`sqlite3_errmsg`), here a
parameter. -/
def sql_result.from_cmd (v : Int) (errmsg : String) : sql_result :=
  if v = SQLITE_OK then sql_result.mkClean v
  else sql_result.mkDirty v ⟨v, errmsg⟩

/-- `sql_result::from_stmt` (lines 73-79): `SQLITE_ROW` and `SQLITE_DONE`
yield a clean guard; anything else a dirty one. -/
def sql_result.from_stmt (v : Int) (errmsg : String) : sql_result :=
  if v = SQLITE_ROW ∨ v = SQLITE_DONE then sql_result.mkClean v
  else sql_result.mkDirty v ⟨v, errmsg⟩

/-- Copy constructor `sql_result(sql_result&)` (lines 81-85): copies all
three members, then, when the new object is dirty, sets the source's
`m_saw_error`.  Returns (the new copy, the source afterwards). -/
def sql_result.copyCtor (rhs : sql_result) : sql_result × sql_result :=
  let c : sql_result := ⟨rhs.value, rhs.m_saw_error, rhs.m_err⟩
  if c.m_saw_error then (c, rhs) else (c, { rhs with m_saw_error := true })

/-- Move constructor `sql_result(sql_result&&)` (line 87): member-wise
`std::move`.  Moving an `int` or a `bool` copies it, and moving a
`boost::optional` leaves the source optional engaged, so the source keeps
`m_saw_error` and an engaged `m_err` (the contained error is left in a
moved-from state; the theorems below use only the source's flag and the
engagement of its optional).  Returns (the new object, the source
afterwards). -/
def sql_result.moveCtor (rhs : sql_result) : sql_result × sql_result :=
  (⟨rhs.value, rhs.m_saw_error, rhs.m_err⟩, rhs)

/-- Copy assignment `operator=(sql_result&)` (lines 89-97): overwrites the
destination's three members with the source's, then, when the (new)
destination is dirty, sets the source's `m_saw_error`.  Returns (the new
destination, the source afterwards). -/
def sql_result.assignCopy (dst rhs : sql_result) : sql_result × sql_result :=
  let d : sql_result := ⟨rhs.value, rhs.m_saw_error, rhs.m_err⟩
  if d.m_saw_error then (d, rhs) else (d, { rhs with m_saw_error := true })

/-- Move assignment `operator=(sql_result&&)` (lines 99-105): member-wise
`std::move` only; the source's flag is not reset.  Returns (the new
destination, the source afterwards). -/
def sql_result.assignMove (dst rhs : sql_result) : sql_result × sql_result :=
  (⟨rhs.value, rhs.m_saw_error, rhs.m_err⟩, rhs)

/-- Destructor `~sql_result` (lines 106-110): `if(!m_saw_error) throw
*m_err;`.  Returns the raised error, `none` meaning the destructor
returns normally.  (Dereferencing an empty optional would be undefined;
on reachable states a dirty guard always has an attached error, see
`sql_result.WF`.) -/
def sql_result.dtor (s : sql_result) : Option sql_error :=
  if s.m_saw_error then none else s.m_err

/-- `has_data()` (line 113): `value == SQLITE_ROW`, const noexcept. -/
def sql_result.has_data (s : sql_result) : Bool :=
  decide (s.value = SQLITE_ROW)

/-- `ok()` (line 114): `value == SQLITE_OK`, const noexcept. -/
def sql_result.ok (s : sql_result) : Bool :=
  decide (s.value = SQLITE_OK)

/-- `done()` (line 115): `value == SQLITE_DONE`, const noexcept. -/
def sql_result.done (s : sql_result) : Bool :=
  decide (s.value = SQLITE_DONE)

/-- A call to `has_data()`: the member is const and noexcept, so the call
returns the predicate and leaves the state unchanged. -/
def sql_result.has_dataCall (s : sql_result) : Bool × sql_result :=
  (s.has_data, s)

/-- A call to `ok()`: const and noexcept, state unchanged. -/
def sql_result.okCall (s : sql_result) : Bool × sql_result :=
  (s.ok, s)

/-- A call to `done()`: const and noexcept, state unchanged. -/
def sql_result.doneCall (s : sql_result) : Bool × sql_result :=
  (s.done, s)

/-- `error()` (lines 119-122): noexcept; sets `m_saw_error` and returns a
reference to `m_err` without raising it. -/
def sql_result.errorCall (s : sql_result) : Option sql_error × sql_result :=
  (s.m_err, { s with m_saw_error := true })

/-- `throw_error()` (line 117): sets `m_saw_error` and raises `*m_err`.
Returns (the raised error, the post-state). -/
def sql_result.throw_errorCall (s : sql_result) : Option sql_error × sql_result :=
  (s.m_err, { s with m_saw_error := true })

/-- `explicit operator bool() const` (lines 124-126): returns
`has_data() && ok() && done()`.  The member is const and touches no
field, so the state is returned unchanged. -/
def sql_result.operatorBoolCall (s : sql_result) : Bool × sql_result :=
  (s.has_data && s.ok && s.done, s)

/-- Reachable-state invariant of `sql_result`: a dirty guard always has
an attached error.  Only the two-argument private constructor clears the
flag, and it always attaches an error; every other operation copies both
fields together. -/
def sql_result.WF (s : sql_result) : Prop :=
  s.m_saw_error = false → s.m_err.isSome

/-- `statement::bind` (src/sqlite.hpp lines 198-202): calls
`create_binding`, whose result wraps the native status `r` via
`from_cmd`, and discards the returned guard — the temporary `sql_result`
is destroyed inside `bind` itself, and `bind` returns `*this` (the
statement) for chaining, so no guard ever reaches the caller.  The model
returns the error raised inside `bind`, `none` meaning `bind` returns
normally. -/
def statement.bindRaises (r : Int) (errmsg : String) : Option sql_error :=
  (sql_result.from_cmd r errmsg).dtor

/-- The loop guard in `main` (src/main.cpp lines 28-31): the body of
`while(select.step()) { ... }` runs iff the boolean conversion of the
`sql_result` returned by `step()` yields true. -/
def mainLoopBodyRuns (stepResult : sql_result) : Bool :=
  stepResult.operatorBoolCall.1

/-- The dynamic kinds of error objects occurring in this development; in
the source all of them derive (directly or transitively) from
`std::exception` and from nothing else. -/
inductive ErrKind where
  | stdException
  | sqlError
  | invalidArgument
  | notFound
  | timeout
deriving Repr, DecidableEq

/-- C++ `catch (const E&)` semantics as used in `has_exception`
(src/expected.hpp line 101): the handler for `E` matches a thrown object
iff the object's dynamic kind is `E` itself or a kind derived from `E`;
in this development every kind derives from `std::exception` only. -/
def ErrKind.catches (handler thrown : ErrKind) : Bool :=
  handler == thrown || handler == ErrKind.stdException

/-- A non-null `std::exception_ptr` capture: the dynamic kind and the
message of the captured error object.  Re-raising it reproduces both. -/
structure CapturedError where
  kind : ErrKind
  message : String
deriving Repr, DecidableEq

/-- The storage state of an `expected<T>` (src/expected.hpp lines 9-16):
an unnamed union of `T ham` and `std::exception_ptr spam`, plus the tag
`gotHam`.  The `ham`/`spam` fields are `some` iff that union member is
currently constructed; an operation that reads, assigns or destroys a
member that is not constructed is undefined behaviour, modelled below as
a `none` result. -/
structure expected (T : Type) where
  ham : Option T
  spam : Option CapturedError
  gotHam : Bool
deriving Repr, DecidableEq

/-- `expected(const T&)` / `expected(T&&)` (lines 27-29): constructs
`ham`, tag true; `spam` is never constructed. -/
def expected.mkValue {T : Type} (v : T) : expected T :=
  ⟨some v, none, true⟩

/-- `expected<T>::from_exception(std::exception_ptr)` (lines 65-72):
placement-constructs `spam` from the pointer, tag false; `ham` is never
constructed. -/
def expected.from_exception_ptr (T : Type) (p : CapturedError) : expected T :=
  ⟨none, some p, false⟩

/-- `expected<T>::from_exception(const E&)` (lines 57-63): `staticKind`
is the caller's static type `E` for the error and `e.kind` the dynamic
kind that `typeid(exception)` reports.  On mismatch the function throws
`std::invalid_argument("slicing detected")` (the `Except.error` case);
otherwise `std::make_exception_ptr(exception)` captures the object (the
kinds agree, so nothing is truncated) and the error-state variant is
returned. -/
def expected.from_exception_typed (T : Type) (staticKind : ErrKind) (e : CapturedError) :
    Except CapturedError (expected T) :=
  if e.kind ≠ staticKind then
    Except.error ⟨ErrKind.invalidArgument, "slicing detected"⟩
  else
    Except.ok (expected.from_exception_ptr T e)

/-- `~expected` (lines 20-25): destroys exactly the member selected by
`gotHam`; undefined (`none`) if that member is not the constructed one. -/
def expected.dtor {T : Type} (s : expected T) : Option Unit :=
  if s.gotHam then s.ham.map (fun _ => ()) else s.spam.map (fun _ => ())

/-- Copy constructor (lines 31-36): copies the tag, then
placement-constructs only the member the tag selects from the source's
same member; undefined (`none`) if that source member is not
constructed. -/
def expected.copyCtor {T : Type} (rhs : expected T) : Option (expected T) :=
  if rhs.gotHam then rhs.ham.map (fun v => ⟨some v, none, true⟩)
  else rhs.spam.map (fun p => ⟨none, some p, false⟩)

/-- Move constructor (lines 50-55): same member selection as the copy
constructor, moving instead of copying. -/
def expected.moveCtor {T : Type} (rhs : expected T) : Option (expected T) :=
  if rhs.gotHam then rhs.ham.map (fun v => ⟨some v, none, true⟩)
  else rhs.spam.map (fun p => ⟨none, some p, false⟩)

/-- Copy assignment `operator=(const expected&)` (lines 38-42):
`ham = rhs.ham; gotHam = rhs.gotHam;` — it assigns through the `ham`
union member unconditionally, never looking at either tag first.
Calling `T::operator=` through a union member is defined only when `ham`
is the constructed member on both sides; any other combination is
undefined behaviour (`none`).  Note that the destination's `spam` is
neither destroyed nor assigned. -/
def expected.assignCopy {T : Type} (dst rhs : expected T) : Option (expected T) :=
  match dst.ham, rhs.ham with
  | some _, some v => some ⟨some v, dst.spam, rhs.gotHam⟩
  | _, _ => none

/-- Move assignment `operator=(expected&&)` (lines 44-48): the same
unconditional `ham = std::move(rhs.ham); gotHam = ...;`, with the same
union-member access pattern as the copy assignment. -/
def expected.assignMove {T : Type} (dst rhs : expected T) : Option (expected T) :=
  match dst.ham, rhs.ham with
  | some _, some v => some ⟨some v, dst.spam, rhs.gotHam⟩
  | _, _ => none

/-- `valid()` (line 80): returns the tag, const noexcept. -/
def expected.valid {T : Type} (s : expected T) : Bool :=
  s.gotHam

/-- `get()` (lines 82-92): when `!gotHam`, rethrows `spam` (the
`Except.error` outcome, reproducing the captured kind and message);
otherwise returns a reference to `ham`.  Undefined (`none`) if the
accessed member is not constructed. -/
def expected.get {T : Type} (s : expected T) : Option (Except CapturedError T) :=
  if s.gotHam then s.ham.map Except.ok else s.spam.map Except.error

/-- `has_exception<E>()` (lines 96-107): when `!gotHam`, rethrows `spam`
inside a try block, returns true from `catch (const E&)` and swallows
every other kind in `catch (...)`; when the value is live nothing is
thrown and it returns false.  Undefined (`none`) if `spam` is accessed
while not constructed. -/
def expected.has_exception {T : Type} (E : ErrKind) (s : expected T) : Option Bool :=
  if s.gotHam then some false else s.spam.map (fun p => E.catches p.kind)

/-- The exactly-one-live-payload invariant of `expected<T>`: the member
selected by `gotHam` is constructed and the other one is not. -/
def expected.WF {T : Type} (s : expected T) : Prop :=
  if s.gotHam then s.ham.isSome ∧ s.spam = none else s.spam.isSome ∧ s.ham = none

-- Auxiliary lemmas (shared): the constructors establish the invariants.

lemma sql_result.from_cmd_WF (v : Int) (msg : String) : (sql_result.from_cmd v msg).WF := by
  unfold sql_result.from_cmd sql_result.WF sql_result.mkClean sql_result.mkDirty
  by_cases hv : v = SQLITE_OK <;> simp [hv]

lemma sql_result.from_stmt_WF (v : Int) (msg : String) : (sql_result.from_stmt v msg).WF := by
  unfold sql_result.from_stmt sql_result.WF sql_result.mkClean sql_result.mkDirty
  by_cases hv : v = SQLITE_ROW ∨ v = SQLITE_DONE <;> simp [hv]

lemma expected.mkValue_WF {T : Type} (v : T) : (expected.mkValue v).WF := by
  simp [expected.mkValue, expected.WF]

lemma expected.from_exception_ptr_WF (T : Type) (p : CapturedError) :
    (expected.from_exception_ptr T p).WF := by
  simp [expected.from_exception_ptr, expected.WF]

/-- C1: the destructor of a checked result guard raises the attached
error exactly when the guard is destroyed while still dirty
(`m_saw_error = false`, which holds from construction off a failure
status until some observing operation sets it); a guard constructed from
a success status (`SQLITE_OK` for commands, `SQLITE_ROW`/`SQLITE_DONE`
for steps) starts with the flag already set, so its destructor never
raises even if the guard is never inspected. -/
theorem C1_dtor_raises_iff_dirty (s : sql_result) (h : s.WF) :
    (s.dtor.isSome ↔ s.m_saw_error = false) ∧
    (∀ e, s.dtor = some e ↔ s.m_saw_error = false ∧ s.m_err = some e) ∧
    (∀ msg, (sql_result.from_cmd SQLITE_OK msg).dtor = none ∧
      (sql_result.from_stmt SQLITE_ROW msg).dtor = none ∧
      (sql_result.from_stmt SQLITE_DONE msg).dtor = none) ∧
    (∀ v msg, (sql_result.from_cmd v msg).m_saw_error = false ↔ v ≠ SQLITE_OK) := by
  refine ⟨?_, ?_, ?_, ?_⟩
  · cases hs : s.m_saw_error with
    | false => have hsome := h hs; simp [sql_result.dtor, hs, hsome]
    | true => simp [sql_result.dtor, hs]
  · intro e
    cases hs : s.m_saw_error with
    | false => simp [sql_result.dtor, hs]
    | true => simp [sql_result.dtor, hs]
  · intro msg
    refine ⟨?_, ?_, ?_⟩ <;>
      simp [sql_result.from_cmd, sql_result.from_stmt, sql_result.mkClean,
        sql_result.dtor, SQLITE_OK, SQLITE_ROW, SQLITE_DONE]
  · intro v msg
    by_cases hv : v = SQLITE_OK <;>
      simp [sql_result.from_cmd, sql_result.mkClean, sql_result.mkDirty, hv]

/-- Witness for C1 at a concrete dirty guard (failure status 5). -/
theorem C1_dtor_raises_iff_dirty_witness :
    (sql_result.from_cmd 5 "disk I/O error").WF ∧
    ((sql_result.from_cmd 5 "disk I/O error").dtor.isSome ↔
      (sql_result.from_cmd 5 "disk I/O error").m_saw_error = false) :=
  ⟨sql_result.from_cmd_WF 5 "disk I/O error",
    (C1_dtor_raises_iff_dirty (sql_result.from_cmd 5 "disk I/O error")
      (sql_result.from_cmd_WF 5 "disk I/O error")).1⟩

/-- C2 as stated is false: move construction (and move assignment) from a
dirty guard does NOT mark the source as observed — `std::move` of the
`bool` copies it and `std::move` of the `boost::optional` leaves it
engaged — so after a move from the dirty guard built from status 5, the
source is still dirty and BOTH the source's and the destination's
destructors raise: two live instances carry the obligation. -/
theorem C2_counterexample :
    (sql_result.from_cmd 5 "disk I/O error").moveCtor.2.m_saw_error = false ∧
    (sql_result.from_cmd 5 "disk I/O error").moveCtor.1.dtor.isSome = true ∧
    (sql_result.from_cmd 5 "disk I/O error").moveCtor.2.dtor.isSome = true ∧
    (sql_result.assignMove (sql_result.from_cmd 0 "")
      (sql_result.from_cmd 5 "disk I/O error")).2.m_saw_error = false := by
  decide

/-- C2 amended: copy construction and copy assignment from a dirty guard
transfer the not-yet-observed obligation — the destination becomes dirty
(and raises the attached error on destruction) while the source is marked
observed (its destruction no longer raises) — so among original and copy
exactly one carries the obligation.  Move construction and move
assignment, however, merely copy the flag: the source stays dirty, so
after a move both the source and the destination carry the obligation. -/
theorem C2_obligation_transfer (s : sql_result) (h : s.m_saw_error = false) :
    (s.copyCtor.1.m_saw_error = false ∧ s.copyCtor.2.m_saw_error = true ∧
      s.copyCtor.1.dtor = s.m_err ∧ s.copyCtor.2.dtor = none) ∧
    (∀ d, (sql_result.assignCopy d s).1.m_saw_error = false ∧
      (sql_result.assignCopy d s).2.m_saw_error = true) ∧
    (s.moveCtor.1.m_saw_error = false ∧ s.moveCtor.2.m_saw_error = false) ∧
    (∀ d, (sql_result.assignMove d s).1.m_saw_error = false ∧
      (sql_result.assignMove d s).2.m_saw_error = false) := by
  refine ⟨?_, ?_, ?_, ?_⟩
  · simp [sql_result.copyCtor, sql_result.dtor, h]
  · intro d; simp [sql_result.assignCopy, h]
  · simp [sql_result.moveCtor, h]
  · intro d; simp [sql_result.assignMove, h]

/-- Witness for C2's amended theorem at the dirty guard from status 5. -/
theorem C2_obligation_transfer_witness :
    (sql_result.from_cmd 5 "disk I/O error").copyCtor.2.m_saw_error = true :=
  (C2_obligation_transfer (sql_result.from_cmd 5 "disk I/O error") (by decide)).1.2.1

/-- C3: evaluation at the failing input.  Both operands satisfy the
exactly-one-live-payload invariant — the destination holds a captured
error, the source holds the value 42 — yet copy assignment, which
executes `ham = rhs.ham` unconditionally, assigns through the
destination's non-constructed `ham` union member: undefined behaviour
(`none`), instead of the destroy-and-construct-in-place the invariant
requires when the active payload kinds differ. -/
theorem C3_assign_through_inactive_payload :
    (expected.from_exception_ptr Int ⟨ErrKind.sqlError, "disk I/O error"⟩).WF ∧
    (expected.mkValue (42 : Int)).WF ∧
    expected.assignCopy (expected.from_exception_ptr Int ⟨ErrKind.sqlError, "disk I/O error"⟩)
      (expected.mkValue (42 : Int)) = none ∧
    expected.assignMove (expected.from_exception_ptr Int ⟨ErrKind.sqlError, "disk I/O error"⟩)
      (expected.mkValue (42 : Int)) = none := by
  refine ⟨expected.from_exception_ptr_WF Int ⟨ErrKind.sqlError, "disk I/O error"⟩,
    expected.mkValue_WF (42 : Int), rfl, rfl⟩

/-- C4 as stated is false: the boolean conversion is a const member that
reads only the status code and touches no field, so it does NOT count as
observation — after converting the dirty guard built from status 5 to
bool, the flag is still false and the destructor still raises. -/
theorem C4_counterexample :
    (sql_result.from_cmd 5 "disk I/O error").operatorBoolCall.2.m_saw_error = false ∧
    (sql_result.from_cmd 5 "disk I/O error").operatorBoolCall.2.dtor.isSome = true := by
  decide

/-- C4 amended: `has_data()`, `ok()` and `done()` are non-throwing
predicates over the status code that leave the observed flag and the
attached error unchanged, and the boolean conversion — the conjunction of
the three predicates — is equally passive: it too leaves the state
unchanged and does not clear the pending-error obligation. -/
theorem C4_predicates_passive (s : sql_result) :
    s.has_dataCall = (decide (s.value = SQLITE_ROW), s) ∧
    s.okCall = (decide (s.value = SQLITE_OK), s) ∧
    s.doneCall = (decide (s.value = SQLITE_DONE), s) ∧
    s.operatorBoolCall = (s.has_data && s.ok && s.done, s) ∧
    s.operatorBoolCall.2.m_saw_error = s.m_saw_error ∧
    s.operatorBoolCall.2.m_err = s.m_err := by
  refine ⟨rfl, rfl, rfl, rfl, rfl, rfl⟩

/-- C5: wrapping a value yields a variant with `valid() = true` whose
`get()` returns exactly that value; a variant wrapping a captured error
has `valid() = false` and its `get()` re-raises exactly the stored
capture — the same dynamic kind and the same message. -/
theorem C5_wrap_roundtrip (T : Type) (v : T) (e : CapturedError) :
    (expected.mkValue v).valid = true ∧
    (expected.mkValue v).get = some (Except.ok v) ∧
    (expected.from_exception_ptr T e).valid = false ∧
    (expected.from_exception_ptr T e).get = some (Except.error e) := by
  refine ⟨rfl, rfl, rfl, rfl⟩

/-- C6: calling `error()` on a dirty guard sets the observed flag and
returns the attached error without raising it; destroying the guard
afterwards raises nothing, although the status code is unchanged and
still denotes the failure. -/
theorem C6_error_clears_obligation (s : sql_result) (h : s.m_saw_error = false) :
    s.errorCall.1 = s.m_err ∧
    s.errorCall.2.m_saw_error = true ∧
    s.errorCall.2.dtor = none ∧
    s.errorCall.2.value = s.value ∧
    s.errorCall.2.m_err = s.m_err := by
  refine ⟨rfl, rfl, by simp [sql_result.errorCall, sql_result.dtor], rfl, rfl⟩

/-- Witness for C6 at the dirty guard from status 5. -/
theorem C6_error_clears_obligation_witness :
    (sql_result.from_cmd 5 "disk I/O error").errorCall.2.dtor = none :=
  (C6_error_clears_obligation (sql_result.from_cmd 5 "disk I/O error") (by decide)).2.2.1

/-- C7: `has_exception<E>` has a defined, non-throwing boolean outcome on
every invariant-respecting variant, and that outcome is true iff the
variant holds a captured error whose dynamic kind the handler type `E`
catches (`E` itself or a kind derived from `E`); it is false when the
captured kind is unrelated to `E` and when the variant holds a value. -/
theorem C7_has_exception_probe (T : Type) (E : ErrKind) (s : expected T) (h : s.WF) :
    ∃ b : Bool, s.has_exception E = some b ∧
      (b = true ↔ s.gotHam = false ∧ ∃ p, s.spam = some p ∧ E.catches p.kind = true) := by
  cases hg : s.gotHam with
  | true =>
    refine ⟨false, by simp [expected.has_exception, hg], by simp [hg]⟩
  | false =>
    simp only [expected.WF, hg, Bool.false_eq_true, if_false] at h
    obtain ⟨p, hp⟩ := Option.isSome_iff_exists.mp h.1
    refine ⟨E.catches p.kind, by simp [expected.has_exception, hg, hp], ?_⟩
    simp [hg, hp]

/-- Witness for C7: probing the sql_error capture with handler
`std::exception` (the base kind) succeeds. -/
theorem C7_has_exception_probe_witness :
    ∃ b : Bool,
      (expected.from_exception_ptr Int ⟨ErrKind.sqlError, "disk I/O error"⟩).has_exception
        ErrKind.stdException = some b ∧
      (b = true ↔
        (expected.from_exception_ptr Int ⟨ErrKind.sqlError, "disk I/O error"⟩).gotHam = false ∧
        ∃ p, (expected.from_exception_ptr Int ⟨ErrKind.sqlError, "disk I/O error"⟩).spam = some p ∧
          ErrKind.stdException.catches p.kind = true) :=
  C7_has_exception_probe Int ErrKind.stdException
    (expected.from_exception_ptr Int ⟨ErrKind.sqlError, "disk I/O error"⟩)
    (expected.from_exception_ptr_WF Int ⟨ErrKind.sqlError, "disk I/O error"⟩)

/-- C8: `from_exception(const E&)` throws
`std::invalid_argument("slicing detected")` whenever the caller's static
kind differs from the argument's dynamic kind, and otherwise stores a
rethrowable capture of the error and returns the variant in the error
state (invalid, with `get()` re-raising the capture). -/
theorem C8_slicing_guard (T : Type) (staticKind : ErrKind) (e : CapturedError) :
    (e.kind ≠ staticKind →
      expected.from_exception_typed T staticKind e =
        Except.error ⟨ErrKind.invalidArgument, "slicing detected"⟩) ∧
    (e.kind = staticKind →
      expected.from_exception_typed T staticKind e =
        Except.ok (expected.from_exception_ptr T e) ∧
      (expected.from_exception_ptr T e).valid = false ∧
      (expected.from_exception_ptr T e).get = some (Except.error e)) := by
  constructor
  · intro hne
    simp [expected.from_exception_typed, hne]
  · intro heq
    refine ⟨by simp [expected.from_exception_typed, heq], rfl, rfl⟩

/-- Witness for C8: capturing a `std::exception`-kinded object while
claiming static kind `sql_error` is rejected as slicing. -/
theorem C8_slicing_guard_witness :
    expected.from_exception_typed Int ErrKind.sqlError ⟨ErrKind.stdException, "boom"⟩ =
      Except.error ⟨ErrKind.invalidArgument, "slicing detected"⟩ :=
  (C8_slicing_guard Int ErrKind.sqlError ⟨ErrKind.stdException, "boom"⟩).1 (by decide)

/-- C9: the boolean conversion conjoins the three mutually exclusive
status predicates (`value` cannot equal `SQLITE_ROW`, `SQLITE_OK` and
`SQLITE_DONE` at once), so it returns false for every guard whatever its
status code; consequently the row loop in `main`, guarded by the boolean
conversion of `step()`'s result, never executes its body. -/
theorem C9_operator_bool_always_false (s : sql_result) :
    s.operatorBoolCall.1 = false ∧ mainLoopBodyRuns s = false := by
  have hfalse : s.operatorBoolCall.1 = false := by
    simp only [sql_result.operatorBoolCall, sql_result.has_data, sql_result.ok,
      sql_result.done]
    by_cases h1 : s.value = SQLITE_ROW
    · by_cases h2 : s.value = SQLITE_OK
      · exfalso
        rw [h1] at h2
        norm_num [SQLITE_ROW, SQLITE_OK] at h2
      · simp [h2]
    · simp [h1]
  exact ⟨hfalse, hfalse⟩

/-- C10: `bind` discards the guard returned by `create_binding`, so the
temporary's destructor runs inside `bind` itself: it raises exactly when
the native status is not `SQLITE_OK`, and the raised error carries that
status code and the handle's message.  The caller receives only the
statement reference, never a guard it could inspect or suppress. -/
theorem C10_bind_discards_guard (r : Int) (msg : String) :
    (statement.bindRaises r msg = none ↔ r = SQLITE_OK) ∧
    (r ≠ SQLITE_OK → statement.bindRaises r msg = some ⟨r, msg⟩) := by
  unfold statement.bindRaises
  by_cases hr : r = SQLITE_OK
  · simp [sql_result.from_cmd, sql_result.mkClean, sql_result.dtor, hr]
  · simp [sql_result.from_cmd, sql_result.mkClean, sql_result.mkDirty, sql_result.dtor, hr]

/-- Witness for C10: a failed native bind with status 5 raises the error
inside `bind`. -/
theorem C10_bind_discards_guard_witness :
    statement.bindRaises 5 "disk I/O error" = some ⟨5, "disk I/O error"⟩ :=
  (C10_bind_discards_guard 5 "disk I/O error").2 (by decide)
